import Mathlib

/-
Verification of the asset-pipeline and shader-compiler scripts.

Shallow embedding of:
  tools/asset_pipeline/process_assets.py   (class AssetProcessor, main)
  tools/shader_compiler/compile_shaders.py (compile_shader, main)

File contents are byte lists; directories are optional listings of the
files they hold (the listing models the immediate children returned by
pathlib glob, which in Python 3.11 includes dot-files).  Filesystem
effects (copies, manifest write) are collected as explicit data so the
theorems can talk about exactly what each run writes, logs and reports.
-/

namespace GameTools

abbrev Bytes := List Nat

/-- A source file: its name (possibly a relative path with slashes for the
shader compiler's recursive glob) and its content bytes. -/
structure SrcFile where
  name : String
  content : Bytes
deriving DecidableEq, Repr

/-- Characters after the last slash, giving the final path component as
pathlib's name attribute does on a relative path. -/
def afterLastSlash (cs : List Char) : List Char :=
  cs.foldl (fun acc c => if c == '/' then [] else acc ++ [c]) []

/-- Last path component, as pathlib's name attribute on a relative path. -/
def pyName (path : String) : String :=
  String.mk (afterLastSlash path.toList)

/-- Helper for rfindIdx carrying the index of the head element. -/
def rfindIdxFrom : List Char → Char → Nat → Option Nat
  | [], _, _ => none
  | c :: cs, t, i =>
    match rfindIdxFrom cs t (i + 1) with
    | some j => some j
    | none => if c == t then some i else none

/-- Index of the last occurrence of a character in a list. -/
def rfindIdx (cs : List Char) (c : Char) : Option Nat :=
  rfindIdxFrom cs c 0

/-- Embedding of pathlib suffix: the substring of the last path component
from its last dot, provided that dot is neither the leading character nor
the final one; otherwise the empty string. -/
def pySuffix (path : String) : String :=
  let cs := (pyName path).toList
  match rfindIdx cs '.' with
  | some i => if 0 < i ∧ i + 1 < cs.length then String.mk (cs.drop i) else ""
  | none => ""

/-- Embedding of pathlib with_suffix: drop the current suffix of the last
component and append the new suffix. -/
def pyWithSuffix (path newSuffix : String) : String :=
  let cs := path.toList
  String.mk (cs.take (cs.length - (pySuffix path).toList.length) ++ newSuffix.toList)

/-- ASCII lowering of one character; the extension lists compared against
are all ASCII, so this coincides with Python str.lower on every string the
scripts compare. -/
def asciiLowerChar (c : Char) : Char :=
  if 65 ≤ c.toNat ∧ c.toNat ≤ 90 then Char.ofNat (c.toNat + 32) else c

/-- ASCII lowering of a string, modelling str.lower on ASCII data. -/
def asciiLower (s : String) : String :=
  String.mk (s.toList.map asciiLowerChar)

/-! ### Shader compiler script (compile_shaders.py) -/

namespace ShaderCompiler

/-- Result of one compile_shader call: the reported success flag, the
output files it writes, and the lines it prints. -/
structure CompileResult where
  ok : Bool
  writes : List (String × Bytes)
  logs : List String
deriving DecidableEq, Repr

/-- Embedding of compile_shader: prints the compiling message and returns
True; the placeholder body writes no output file. -/
def compile_shader (input_file output_file shader_type : String) : CompileResult :=
  ⟨true, [], ["Compiling " ++ input_file ++ " -> " ++ output_file]⟩

/-- Result of the script's main: its return code, every output file
written, the per-shader success flags observed by the loop, and the
printed lines. -/
structure ShaderRun where
  exitCode : Nat
  writes : List (String × Bytes)
  oks : List Bool
  logs : List String
deriving DecidableEq, Repr

/-- The compile loop of main: for each discovered shader path, call
compile_shader on it with output path obtained by with_suffix, and return
1 as soon as a call reports failure. -/
def compileLoop (output_dir : String) : List SrcFile → ShaderRun
  | [] => ⟨0, [], [], []⟩
  | f :: rest =>
    let out := output_dir ++ "/" ++ pyWithSuffix f.name ".spv"
    let r := compile_shader f.name out "vertex"
    if r.ok then
      let tail := compileLoop output_dir rest
      ⟨tail.exitCode, r.writes ++ tail.writes, r.ok :: tail.oks, r.logs ++ tail.logs⟩
    else
      ⟨1, r.writes, [r.ok], r.logs⟩

/-- The discovery step of the script's main, following the two recursive
globs: the files with suffix hlsl, then those with suffix glsl (glob is
case sensitive, so only lowercase suffixes match). -/
def discoveredShaders (files : List SrcFile) : List SrcFile :=
  files.filter (fun f => pySuffix f.name == ".hlsl")
    ++ files.filter (fun f => pySuffix f.name == ".glsl")

/-- Embedding of the script's main.  The input directory is either absent
(None) or a recursive listing of its files. -/
def shaderMain (input_dir : Option (List SrcFile)) (output_dir : String) : ShaderRun :=
  match input_dir with
  | none => ⟨1, [], [], ["Error: Input directory does not exist"]⟩
  | some files =>
    let shader_files := discoveredShaders files
    let r := compileLoop output_dir shader_files
    if r.exitCode == 0 then
      { r with logs := r.logs ++
          ["Successfully compiled " ++ toString shader_files.length ++ " shaders"] }
    else r

end ShaderCompiler

/-! ### Asset pipeline script (process_assets.py) -/

namespace AssetPipeline

/-- One record appended to the manifest assets list: asset type tag,
source path string and output path string, exactly the three keys the
script stores. -/
structure ManifestEntry where
  type : String
  source : String
  output : String
deriving DecidableEq, Repr

/-- A tiny JSON model, enough for what json.dump serializes here. -/
inductive Json where
  | str : String → Json
  | arr : List Json → Json
  | obj : List (String × Json) → Json

/-- Serialization of one manifest record, mirroring the dict literal the
script appends. -/
def entryJson (e : ManifestEntry) : Json :=
  Json.obj [("type", Json.str e.type), ("source", Json.str e.source),
    ("output", Json.str e.output)]

/-- Serialization of the whole manifest: the single-key object the
processor initializes as its manifest attribute. -/
def manifestJson (entries : List ManifestEntry) : Json :=
  Json.obj [("assets", Json.arr (entries.map entryJson))]

/-- Filesystem operations performed while saving the manifest. -/
inductive FsOp where
  | openTrunc : String → FsOp
  | writeAll : String → Json → FsOp
  | rename : String → String → FsOp

/-- Path of the manifest file inside the output directory. -/
def manifestPath (output_dir : String) : String :=
  output_dir ++ "/asset_manifest.json"

/-- Embedding of generate_manifest: open the destination itself for
writing (truncating it in place) and then dump the serialized manifest
into it.  No temporary file and no rename are involved. -/
def generate_manifest (output_dir : String) (entries : List ManifestEntry) : List FsOp :=
  [FsOp.openTrunc (manifestPath output_dir),
   FsOp.writeAll (manifestPath output_dir) (manifestJson entries)]

/-- The observable outcome of processing one category directory: the
copies written (output path and bytes), the manifest records appended and
the lines printed, each in loop order. -/
structure CatResult where
  writes : List (String × Bytes)
  entries : List ManifestEntry
  logs : List String
deriving DecidableEq, Repr

/-- The empty category outcome, produced when the category directory does
not exist. -/
def CatResult.empty : CatResult := ⟨[], [], []⟩

/-- The recognized extension list of each category, exactly the literal
lists the four processors compare the lowercased suffix against. -/
def catExtensions : String → List String
  | "texture" => [".png", ".jpg", ".jpeg", ".tga", ".bmp"]
  | "model" => [".obj", ".fbx", ".gltf", ".dae"]
  | "audio" => [".wav", ".ogg", ".mp3"]
  | "shader" => [".glsl", ".vert", ".frag", ".hlsl"]
  | _ => []

/-- The shared loop body of the four per-category processors: for each
immediate child of the category directory (pathlib glob of star, which
includes dot-files), when the lowercased suffix is in the category's
extension list, print the processing line, copy the bytes verbatim to the
output category directory under the unchanged name, and append a manifest
record; all other files contribute nothing. -/
def processFiles (assets_dir output_dir typeTag catDir : String) :
    List SrcFile → CatResult
  | [] => CatResult.empty
  | f :: rest =>
    let tail := processFiles assets_dir output_dir typeTag catDir rest
    if asciiLower (pySuffix f.name) ∈ catExtensions typeTag then
      ⟨(output_dir ++ "/" ++ catDir ++ "/" ++ f.name, f.content) :: tail.writes,
       ⟨typeTag, assets_dir ++ "/" ++ catDir ++ "/" ++ f.name,
        output_dir ++ "/" ++ catDir ++ "/" ++ f.name⟩ :: tail.entries,
       ("Processing " ++ typeTag ++ ": " ++ pyName f.name) :: tail.logs⟩
    else tail

/-- The source tree under the assets directory: for each of the four
category directories, either absence or the listing of its immediate
children. -/
structure AssetsDir where
  textures : Option (List SrcFile)
  models : Option (List SrcFile)
  sounds : Option (List SrcFile)
  shaders : Option (List SrcFile)
deriving DecidableEq, Repr

/-- Embedding of process_textures: nothing when the directory is absent,
otherwise the loop over its children. -/
def process_textures (assets_dir output_dir : String)
    (listing : Option (List SrcFile)) : CatResult :=
  match listing with
  | none => CatResult.empty
  | some files => processFiles assets_dir output_dir "texture" "textures" files

/-- Embedding of process_models. -/
def process_models (assets_dir output_dir : String)
    (listing : Option (List SrcFile)) : CatResult :=
  match listing with
  | none => CatResult.empty
  | some files => processFiles assets_dir output_dir "model" "models" files

/-- Embedding of process_audio, which scans the sounds directory. -/
def process_audio (assets_dir output_dir : String)
    (listing : Option (List SrcFile)) : CatResult :=
  match listing with
  | none => CatResult.empty
  | some files => processFiles assets_dir output_dir "audio" "sounds" files

/-- Embedding of process_shaders. -/
def process_shaders (assets_dir output_dir : String)
    (listing : Option (List SrcFile)) : CatResult :=
  match listing with
  | none => CatResult.empty
  | some files => processFiles assets_dir output_dir "shader" "shaders" files

/-- The observable outcome of one process_all_assets call: the returned
flag, the copies written in order, the accumulated manifest list, the
filesystem trace of the manifest save (empty when the run aborts early)
and the printed lines. -/
structure RunResult where
  ok : Bool
  writes : List (String × Bytes)
  manifest : List ManifestEntry
  saveTrace : List FsOp
  logs : List String

/-- Embedding of process_all_assets: return False when the assets
directory does not exist; otherwise run the four category processors in
their fixed order, then generate the manifest, and return True. -/
def process_all_assets (assets_dir output_dir : String)
    (tree : Option AssetsDir) : RunResult :=
  match tree with
  | none =>
    ⟨false, [], [], [],
     ["Starting asset processing...",
      "Assets directory " ++ assets_dir ++ " not found!"]⟩
  | some t =>
    let tex := process_textures assets_dir output_dir t.textures
    let mdl := process_models assets_dir output_dir t.models
    let aud := process_audio assets_dir output_dir t.sounds
    let shd := process_shaders assets_dir output_dir t.shaders
    let manifest := tex.entries ++ mdl.entries ++ aud.entries ++ shd.entries
    ⟨true,
     tex.writes ++ mdl.writes ++ aud.writes ++ shd.writes,
     manifest,
     generate_manifest output_dir manifest,
     ["Starting asset processing..."] ++ tex.logs ++ mdl.logs ++ aud.logs ++ shd.logs
       ++ ["Generated manifest: " ++ manifestPath output_dir,
           "Asset processing complete!"]⟩

/-- Embedding of the script's main: run the processor with the default
directories and exit 0 when it returns True, else 1. -/
def assetMain (tree : Option AssetsDir) : Nat × RunResult :=
  let r := process_all_assets "assets" "processed_assets" tree
  (if r.ok then 0 else 1, r)

/-! ### Output-store semantics

The copies a run performs are replayed onto a store mapping output paths
to bytes, so that consecutive runs can be compared. -/

/-- An output tree: newest write first, lookup takes the first match. -/
abbrev Store := List (String × Bytes)

/-- A write overwrites whatever the path held. -/
def setFile (s : Store) (p : String) (v : Bytes) : Store := (p, v) :: s

/-- Current content of a path, none when never written. -/
def getFile (s : Store) (p : String) : Option Bytes :=
  (s.find? (fun kv => kv.1 == p)).map (fun kv => kv.2)

/-- Replay a run's copies, in order, onto a store. -/
def applyWrites (s : Store) (ws : List (String × Bytes)) : Store :=
  ws.foldl (fun acc w => setFile acc w.1 w.2) s

/-- Two successive invocations of the script on an unchanged source tree:
the first run's copies are replayed onto the store, then the second run
executes against the updated store.  Returns the final store and the
number of files each run processed (copied).  The script never reads the
output store or the previous manifest, so the store influences nothing. -/
def runTwice (tree : Option AssetsDir) (s0 : Store) : Store × Nat × Nat :=
  let r1 := assetMain tree
  let s1 := applyWrites s0 r1.2.writes
  let r2 := assetMain tree
  let s2 := applyWrites s1 r2.2.writes
  (s2, r1.2.writes.length, r2.2.writes.length)

/-! ### Manifest-save semantics -/

/-- State of one file during the save: a complete JSON document, or none
for a file that is truncated or partially written. -/
abbrev FileState := Option Json

/-- A store of JSON files, for replaying the manifest-save trace. -/
abbrev JStore := List (String × FileState)

/-- Overwrite one file's state. -/
def setJ (s : JStore) (p : String) (v : FileState) : JStore := (p, v) :: s

/-- Current state of a path, none when the path does not exist. -/
def getJ (s : JStore) (p : String) : Option FileState :=
  (s.find? (fun kv => kv.1 == p)).map (fun kv => kv.2)

/-- Effect of one filesystem operation: opening for writing truncates the
destination in place (its previous content is gone, no complete document
is there yet); a completed write stores the document; a rename installs
the source's state at the destination. -/
def applyOp (s : JStore) : FsOp → JStore
  | FsOp.openTrunc p => setJ s p none
  | FsOp.writeAll p j => setJ s p (some j)
  | FsOp.rename src dst => setJ s dst ((getJ s src).getD none)

/-- Replay a list of filesystem operations. -/
def applyOps (s : JStore) (ops : List FsOp) : JStore :=
  ops.foldl applyOp s

/-! ### Claim-side definitions

These follow the words of the specification, to be compared with the
behaviour embedded above from the source. -/

/-- Claim-side: whether an operation opens or writes a path directly
(a rename does not). -/
def FsOp.touchesDirectly : FsOp → String → Bool
  | FsOp.openTrunc p, dest => p == dest
  | FsOp.writeAll p _, dest => p == dest
  | FsOp.rename _ _, _ => false

/-- Claim-side formalization of an atomic replace per the spec words
(write to a temporary location, then rename over the destination): the
destination is never opened or written directly, and some rename targets
it. -/
def specAtomicReplace (trace : List FsOp) (dest : String) : Bool :=
  trace.all (fun op => !(FsOp.touchesDirectly op dest)) &&
    trace.any (fun op => match op with
      | FsOp.rename _ dst => dst == dest
      | _ => false)

/-- Claim-side: the logical asset ID of a source name, the
case-insensitive output identity under which two case-differing names
resolve to one output. -/
def specLogicalId (name : String) : String := asciiLower name

/-- Whether a JSON object has a field with the given key. -/
def hasKey (fields : List (String × Json)) (k : String) : Bool :=
  fields.any (fun kv => kv.1 == k)

/-- The per-asset record keys the spec prescribes for the manifest. -/
def specEntryKeys : List String :=
  ["type", "sourcePaths", "outputPath", "contentHash", "processorVersion",
   "status", "timestamp"]

/-- Claim-side formalization of the prescribed manifest shape: a JSON
object each of whose values is itself an object carrying all of the
prescribed per-asset keys. -/
def specManifestShape : Json → Bool
  | Json.obj fields =>
    fields.all (fun kv =>
      match kv.2 with
      | Json.obj entryFields => specEntryKeys.all (fun k => hasKey entryFields k)
      | _ => false)
  | _ => false

/-- The key list of a JSON object, none for other JSON values. -/
def objKeys : Json → Option (List String)
  | Json.obj fields => some (fields.map (fun kv => kv.1))
  | _ => none

end AssetPipeline

end GameTools

namespace GameTools

open ShaderCompiler AssetPipeline

/-! ### Shared lemmas -/

/-- The compile loop always reports exit 0, writes nothing, and records
only successful compiles, whatever shaders it is fed. -/
theorem compileLoop_spec (o : String) (fs : List SrcFile) :
    (compileLoop o fs).exitCode = 0 ∧ (compileLoop o fs).writes = [] ∧
      (compileLoop o fs).oks.all (fun b => b) = true := by
  induction fs with
  | nil => exact ⟨rfl, rfl, rfl⟩
  | cons f rest ih =>
    refine ⟨ih.1, ?_, ?_⟩
    · show [] ++ (compileLoop o rest).writes = []
      simpa using ih.2.1
    · show (true :: (compileLoop o rest).oks).all (fun b => b) = true
      simpa using ih.2.2

/-- Behaviour of the shader-compiler main on an existing input directory:
exit 0, no file written, every compile reported successful, and the final
line reports all discovered shaders as successfully compiled. -/
theorem shaderMain_some_spec (files : List SrcFile) (out : String) :
    (shaderMain (some files) out).exitCode = 0 ∧
      (shaderMain (some files) out).writes = [] ∧
      (shaderMain (some files) out).oks.all (fun b => b) = true ∧
      (shaderMain (some files) out).logs.getLast? =
        some ("Successfully compiled " ++ toString (discoveredShaders files).length
          ++ " shaders") := by
  obtain ⟨h1, h2, h3⟩ := compileLoop_spec out (discoveredShaders files)
  simp only [shaderMain]
  rw [h1]
  simp only [beq_self_eq_true, if_true]
  exact ⟨by simp, h2, h3, by simp⟩

/-- Replaying a list of writes prepends them, newest first, to the store. -/
theorem applyWrites_eq (ws : List (String × Bytes)) (s : Store) :
    applyWrites s ws = ws.reverse ++ s := by
  induction ws generalizing s with
  | nil => rfl
  | cons w ws ih =>
    show applyWrites (setFile s w.1 w.2) ws = _
    rw [ih]
    simp [setFile]

/-- Lookup steps through a cons cell. -/
theorem getFile_cons (kv : String × Bytes) (s : Store) (p : String) :
    getFile (kv :: s) p = if kv.1 == p then some kv.2 else getFile s p := by
  cases h : kv.1 == p <;> simp [getFile, List.find?_cons, h]

/-- Lookup over an append tries the left store first. -/
theorem getFile_append (a b : Store) (p : String) :
    getFile (a ++ b) p =
      match getFile a p with
      | some v => some v
      | none => getFile b p := by
  induction a with
  | nil => rfl
  | cons kv rest ih =>
    show getFile (kv :: (rest ++ b)) p = _
    rw [getFile_cons, getFile_cons]
    cases h : kv.1 == p
    · simpa using ih
    · rfl

/-- Prepending the same batch of writes twice changes no lookup relative
to prepending it once. -/
theorem getFile_self_append (a b : Store) (p : String) :
    getFile (a ++ (a ++ b)) p = getFile (a ++ b) p := by
  rw [getFile_append a (a ++ b) p, getFile_append a b p]
  cases h : getFile a p
  · simp [getFile_append a b p, h]
  · rfl

/-- Characterization of the per-category loop: the copies, manifest
records and log lines are exactly those of the files whose lowercased
suffix is in the category's extension list, in listing order. -/
theorem processFiles_eq (a o ty cd : String) (files : List SrcFile) :
    processFiles a o ty cd files =
      ⟨(files.filter (fun f => asciiLower (pySuffix f.name) ∈ catExtensions ty)).map
          (fun f => (o ++ "/" ++ cd ++ "/" ++ f.name, f.content)),
        (files.filter (fun f => asciiLower (pySuffix f.name) ∈ catExtensions ty)).map
          (fun f => ⟨ty, a ++ "/" ++ cd ++ "/" ++ f.name, o ++ "/" ++ cd ++ "/" ++ f.name⟩),
        (files.filter (fun f => asciiLower (pySuffix f.name) ∈ catExtensions ty)).map
          (fun f => "Processing " ++ ty ++ ": " ++ pyName f.name)⟩ := by
  induction files with
  | nil => rfl
  | cons g rest ih =>
    by_cases h : asciiLower (pySuffix g.name) ∈ catExtensions ty
    · simp [processFiles, ih, List.filter_cons, h]
    · simp [processFiles, ih, List.filter_cons, h]

/-- A matching file's verbatim copy is among the loop's writes. -/
theorem processFiles_write_of_mem (a o ty cd : String) (files : List SrcFile)
    (f : SrcFile) (hf : f ∈ files)
    (hext : asciiLower (pySuffix f.name) ∈ catExtensions ty) :
    (o ++ "/" ++ cd ++ "/" ++ f.name, f.content)
      ∈ (processFiles a o ty cd files).writes := by
  rw [processFiles_eq]
  exact List.mem_map_of_mem _ (List.mem_filter.mpr ⟨hf, by simpa using hext⟩)

/-- The asset script can only exit 0 or 1; there is no exit code 2. -/
theorem assetMain_ne_two (tree : Option AssetsDir) : (assetMain tree).1 ≠ 2 := by
  cases tree with
  | none => decide
  | some t =>
    have h0 : (assetMain (some t)).1 = 0 := rfl
    rw [h0]
    decide

/-! ### Claim theorems -/

/-- C1: every invocation of compile_shader reports success and writes no
compiled output file; consequently, on any existing input directory the
script's main reports every discovered shader as successfully compiled,
writes no output file, and returns 0, regardless of shader contents. -/
theorem c1_compiler_stub_always_succeeds :
    (∀ input_file output_file stage,
        (compile_shader input_file output_file stage).ok = true ∧
        (compile_shader input_file output_file stage).writes = []) ∧
    ∀ files out,
      (shaderMain (some files) out).exitCode = 0 ∧
      (shaderMain (some files) out).writes = [] ∧
      (shaderMain (some files) out).oks.all (fun b => b) = true ∧
      (shaderMain (some files) out).logs.getLast? =
        some ("Successfully compiled " ++ toString (discoveredShaders files).length
          ++ " shaders") :=
  ⟨fun _ _ _ => ⟨rfl, rfl⟩, fun files out => shaderMain_some_spec files out⟩

/-- C1 witness: the statement applied to one concrete shader and run. -/
theorem c1_compiler_stub_always_succeeds_witness :
    (compile_shader "a.hlsl" "out/a.spv" "vertex").ok = true ∧
    (shaderMain (some [⟨"a.hlsl", [0]⟩]) "out").exitCode = 0 ∧
    (shaderMain (some [⟨"a.hlsl", [0]⟩]) "out").writes = [] :=
  ⟨(c1_compiler_stub_always_succeeds.1 "a.hlsl" "out/a.spv" "vertex").1,
   (c1_compiler_stub_always_succeeds.2 [⟨"a.hlsl", [0]⟩] "out").1,
   (c1_compiler_stub_always_succeeds.2 [⟨"a.hlsl", [0]⟩] "out").2.1⟩

/-- C2 counterexample: with sources textures/a.png and shaders/b.frag and
no prior manifest, the run exits 0 and the manifest has 2 entries, but no
shaders/b.spv is produced: the shader is copied verbatim to
shaders/b.frag, and the shader-compiler script (whose globs match only
hlsl and glsl suffixes) writes no file at all on the same source. -/
theorem c2_counterexample :
    (assetMain (some ⟨some [⟨"a.png", [1]⟩], none, none, some [⟨"b.frag", [2]⟩]⟩)).1
        = 0 ∧
    (assetMain (some ⟨some [⟨"a.png", [1]⟩], none, none,
        some [⟨"b.frag", [2]⟩]⟩)).2.manifest.length = 2 ∧
    (assetMain (some ⟨some [⟨"a.png", [1]⟩], none, none,
        some [⟨"b.frag", [2]⟩]⟩)).2.writes.map Prod.fst =
      ["processed_assets/textures/a.png", "processed_assets/shaders/b.frag"] ∧
    "processed_assets/shaders/b.spv" ∉
      (assetMain (some ⟨some [⟨"a.png", [1]⟩], none, none,
        some [⟨"b.frag", [2]⟩]⟩)).2.writes.map Prod.fst ∧
    (ShaderCompiler.shaderMain (some [⟨"b.frag", [2]⟩]) "processed_assets").writes
        = [] := by
  decide

/-- C2 amended: given assets/textures/a.png and assets/shaders/b.frag and
no prior manifest, one run of the build copies both files verbatim,
producing output/textures/a.png and output/shaders/b.frag (not b.spv: no
compilation to spv happens anywhere), a manifest with exactly 2 entries,
and exit code 0. -/
theorem c2_end_to_end (cA cB : Bytes) :
    (assetMain (some ⟨some [⟨"a.png", cA⟩], none, none, some [⟨"b.frag", cB⟩]⟩)).1
        = 0 ∧
    (assetMain (some ⟨some [⟨"a.png", cA⟩], none, none,
        some [⟨"b.frag", cB⟩]⟩)).2.writes =
      [("processed_assets/textures/a.png", cA),
       ("processed_assets/shaders/b.frag", cB)] ∧
    (assetMain (some ⟨some [⟨"a.png", cA⟩], none, none,
        some [⟨"b.frag", cB⟩]⟩)).2.manifest.length = 2 ∧
    "processed_assets/shaders/b.spv" ∉
      (assetMain (some ⟨some [⟨"a.png", cA⟩], none, none,
        some [⟨"b.frag", cB⟩]⟩)).2.writes.map Prod.fst ∧
    (ShaderCompiler.shaderMain (some [⟨"b.frag", cB⟩]) "processed_assets").writes
        = [] := by
  refine ⟨rfl, rfl, rfl, ?_, rfl⟩
  have h : (assetMain (some ⟨some [⟨"a.png", cA⟩], none, none,
      some [⟨"b.frag", cB⟩]⟩)).2.writes.map Prod.fst =
        ["processed_assets/textures/a.png", "processed_assets/shaders/b.frag"] := rfl
  rw [h]
  decide

/-- C2 witness: the amended statement applied to concrete contents. -/
theorem c2_end_to_end_witness :
    (assetMain (some ⟨some [⟨"a.png", [1]⟩], none, none,
        some [⟨"b.frag", [2]⟩]⟩)).1 = 0 ∧
    (assetMain (some ⟨some [⟨"a.png", [1]⟩], none, none,
        some [⟨"b.frag", [2]⟩]⟩)).2.writes =
      [("processed_assets/textures/a.png", [1]),
       ("processed_assets/shaders/b.frag", [2])] :=
  ⟨(c2_end_to_end [1] [2]).1, (c2_end_to_end [1] [2]).2.1⟩

/-- C3 counterexample: a nonexistent assets or input directory is a
configuration error with zero node failures, yet both scripts exit 1
there, not 2; no run ever exits 2. -/
theorem c3_counterexample :
    (assetMain none).1 = 1 ∧ (assetMain none).1 ≠ 2 ∧
    (ShaderCompiler.shaderMain none "output").exitCode = 1 ∧
    (ShaderCompiler.shaderMain none "output").exitCode ≠ 2 := by
  decide

/-- C3 amended: the asset script exits 0 exactly when the assets
directory exists (processing never fails), and 1 when it does not;
likewise the shader script returns 0 on an existing input directory and 1
otherwise; configuration errors exit 1, and exit code 2 never occurs. -/
theorem c3_exit_codes :
    (∀ t, (assetMain (some t)).1 = 0) ∧
    (assetMain none).1 = 1 ∧
    (∀ tree, (assetMain tree).1 ≠ 2) ∧
    (∀ files out, (ShaderCompiler.shaderMain (some files) out).exitCode = 0) ∧
    (∀ out, (ShaderCompiler.shaderMain none out).exitCode = 1) :=
  ⟨fun _ => rfl, rfl, assetMain_ne_two,
   fun files out => (shaderMain_some_spec files out).1, fun _ => rfl⟩

/-- C3 witness: the amended statement applied to concrete trees. -/
theorem c3_exit_codes_witness :
    (assetMain (some ⟨none, none, none, none⟩)).1 = 0 ∧
    (assetMain none).1 = 1 ∧ (assetMain none).1 ≠ 2 :=
  ⟨c3_exit_codes.1 ⟨none, none, none, none⟩, c3_exit_codes.2.1,
   c3_exit_codes.2.2.1 none⟩

/-- C4 counterexample: on a tree with two assets, the second of two
successive runs with unchanged sources re-processes (copies) 2 assets,
not 0; nothing is skipped as up-to-date. -/
theorem c4_counterexample :
    (runTwice (some ⟨some [⟨"a.png", [1]⟩], none, none, some [⟨"b.frag", [2]⟩]⟩)
        []).2.2 = 2 ∧
    (runTwice (some ⟨some [⟨"a.png", [1]⟩], none, none, some [⟨"b.frag", [2]⟩]⟩)
        []).2.2 ≠ 0 := by
  decide

/-- C4 amended: the script keeps no staleness state (it never reads the
output tree or the previous manifest), so a second run with unchanged
sources re-processes exactly the same assets as the first — skipping
nothing — while the second run's copies leave every output path's content
unchanged (the run is idempotent in effect, not in work). -/
theorem c4_second_run_reprocesses_all (tree : Option AssetsDir) (s0 : Store) :
    (runTwice tree s0).2.2 = (runTwice tree s0).2.1 ∧
    (runTwice tree s0).2.2 = (assetMain tree).2.writes.length ∧
    ∀ p, getFile (runTwice tree s0).1 p =
      getFile (applyWrites s0 (assetMain tree).2.writes) p := by
  refine ⟨rfl, rfl, ?_⟩
  intro p
  show getFile (applyWrites (applyWrites s0 (assetMain tree).2.writes)
      (assetMain tree).2.writes) p = _
  rw [applyWrites_eq, applyWrites_eq]
  exact getFile_self_append _ _ p

/-- C4 witness: the amended statement applied to a concrete tree, store
and output path. -/
theorem c4_second_run_reprocesses_all_witness :
    (runTwice (some ⟨some [⟨"a.png", [1]⟩], none, none, none⟩) []).2.2 =
      (runTwice (some ⟨some [⟨"a.png", [1]⟩], none, none, none⟩) []).2.1 ∧
    getFile (runTwice (some ⟨some [⟨"a.png", [1]⟩], none, none, none⟩) []).1
        "processed_assets/textures/a.png" =
      getFile (applyWrites []
          (assetMain (some ⟨some [⟨"a.png", [1]⟩], none, none, none⟩)).2.writes)
        "processed_assets/textures/a.png" :=
  ⟨(c4_second_run_reprocesses_all
      (some ⟨some [⟨"a.png", [1]⟩], none, none, none⟩) []).1,
   (c4_second_run_reprocesses_all
      (some ⟨some [⟨"a.png", [1]⟩], none, none, none⟩) []).2.2
     "processed_assets/textures/a.png"⟩

/-- C5 counterexample: the manifest save is not an atomic replace — its
trace opens the destination itself for writing and contains no rename —
and replaying just its first operation (a crash between the truncating
open and the dump) leaves the destination truncated, holding neither the
previous manifest nor the new one. -/
theorem c5_counterexample :
    specAtomicReplace (generate_manifest "processed_assets" [⟨"texture", "s", "o"⟩])
        (manifestPath "processed_assets") = false ∧
    getJ (applyOps [(manifestPath "processed_assets",
          some (manifestJson [⟨"texture", "old", "old"⟩]))]
        ((generate_manifest "processed_assets" [⟨"texture", "s", "o"⟩]).take 1))
      (manifestPath "processed_assets") = some none ∧
    some (none : FileState) ≠
      some (some (manifestJson [⟨"texture", "old", "old"⟩])) ∧
    some (none : FileState) ≠
      some (some (manifestJson [⟨"texture", "s", "o"⟩])) := by
  refine ⟨by decide, rfl, by simp, by simp⟩

/-- C5 amended: generate_manifest writes the destination in place — it
opens asset_manifest.json itself for writing (truncating it) and then
dumps the new manifest into it, with no temporary file and no rename — so
after the full trace the destination holds the new manifest, but between
the truncating open and the completed write it holds a partial (empty)
file rather than the previous or the new manifest. -/
theorem c5_save_is_in_place (output_dir : String) (entries : List ManifestEntry)
    (s : JStore) :
    specAtomicReplace (generate_manifest output_dir entries)
        (manifestPath output_dir) = false ∧
    getJ (applyOps s (generate_manifest output_dir entries))
        (manifestPath output_dir) = some (some (manifestJson entries)) ∧
    getJ (applyOps s ((generate_manifest output_dir entries).take 1))
        (manifestPath output_dir) = some none := by
  refine ⟨?_, ?_, ?_⟩
  · simp [specAtomicReplace, generate_manifest, FsOp.touchesDirectly]
  · simp [applyOps, generate_manifest, applyOp, setJ, getJ, List.find?_cons]
  · simp [applyOps, generate_manifest, applyOp, setJ, getJ, List.find?_cons]

/-- C5 witness: the amended statement applied to a concrete save. -/
theorem c5_save_is_in_place_witness :
    specAtomicReplace (generate_manifest "processed_assets" [⟨"texture", "s", "o"⟩])
        (manifestPath "processed_assets") = false ∧
    getJ (applyOps [] (generate_manifest "processed_assets" [⟨"texture", "s", "o"⟩]))
        (manifestPath "processed_assets") =
      some (some (manifestJson [⟨"texture", "s", "o"⟩])) :=
  ⟨(c5_save_is_in_place "processed_assets" [⟨"texture", "s", "o"⟩] []).1,
   (c5_save_is_in_place "processed_assets" [⟨"texture", "s", "o"⟩] []).2.1⟩

/-- C6 counterexample: the persisted manifest of a run with one texture
is not an object keyed by asset ID with records carrying type,
sourcePaths, outputPath, contentHash, processorVersion, status and
timestamp: its serialization fails that shape even though the manifest is
nonempty. -/
theorem c6_counterexample :
    specManifestShape (manifestJson
      (assetMain (some ⟨some [⟨"a.png", [1]⟩], none, none, none⟩)).2.manifest)
        = false ∧
    (assetMain (some ⟨some [⟨"a.png", [1]⟩], none, none, none⟩)).2.manifest
        ≠ [] := by
  exact ⟨rfl, by decide⟩

/-- C6 amended: the persisted asset_manifest.json is an object with the
single key assets, holding an array with one record per processed file
(not keyed by asset ID, so duplicates are possible), each record an
object with exactly the keys type, source and output; it never has the
shape the spec prescribes. -/
theorem c6_manifest_is_assets_list (tree : AssetsDir) :
    objKeys (manifestJson (assetMain (some tree)).2.manifest) = some ["assets"] ∧
    manifestJson (assetMain (some tree)).2.manifest =
      Json.obj [("assets",
        Json.arr ((assetMain (some tree)).2.manifest.map entryJson))] ∧
    (∀ e ∈ (assetMain (some tree)).2.manifest,
        objKeys (entryJson e) = some ["type", "source", "output"]) ∧
    specManifestShape (manifestJson (assetMain (some tree)).2.manifest) = false :=
  ⟨rfl, rfl, fun _ _ => rfl, rfl⟩

/-- C6 witness: the amended statement applied to a one-texture tree and
its manifest entry. -/
theorem c6_manifest_is_assets_list_witness :
    objKeys (manifestJson (assetMain (some ⟨some [⟨"a.png", [1]⟩], none, none,
        none⟩)).2.manifest) = some ["assets"] ∧
    objKeys (entryJson ⟨"texture", "assets/textures/a.png",
        "processed_assets/textures/a.png"⟩) = some ["type", "source", "output"] :=
  ⟨(c6_manifest_is_assets_list ⟨some [⟨"a.png", [1]⟩], none, none, none⟩).1,
   (c6_manifest_is_assets_list ⟨some [⟨"a.png", [1]⟩], none, none, none⟩).2.2.1
     ⟨"texture", "assets/textures/a.png", "processed_assets/textures/a.png"⟩
     (by decide)⟩

/-- C7 counterexample: two texture files whose names differ only in case
share one logical asset ID (one case-insensitive output identity), yet
the run is not aborted: it exits 0 (never 2), copies both files and
appends both manifest entries. -/
theorem c7_counterexample :
    specLogicalId "A.png" = specLogicalId "a.png" ∧
    (assetMain (some ⟨some [⟨"A.png", [1]⟩, ⟨"a.png", [2]⟩], none, none,
        none⟩)).1 = 0 ∧
    (assetMain (some ⟨some [⟨"A.png", [1]⟩, ⟨"a.png", [2]⟩], none, none,
        none⟩)).1 ≠ 2 ∧
    (assetMain (some ⟨some [⟨"A.png", [1]⟩, ⟨"a.png", [2]⟩], none, none,
        none⟩)).2.writes.length = 2 ∧
    (assetMain (some ⟨some [⟨"A.png", [1]⟩, ⟨"a.png", [2]⟩], none, none,
        none⟩)).2.manifest.length = 2 := by
  decide

/-- C7 amended: the pipeline performs no duplicate-ID detection: when two
source files map to the same logical asset ID, both are processed — both
copied (on a case-insensitive filesystem the later targets the same
output as the earlier) and both appended to the manifest — the run exits
0, and no run ever exits 2. -/
theorem c7_no_duplicate_detection (cA cB : Bytes) :
    specLogicalId "A.png" = specLogicalId "a.png" ∧
    (assetMain (some ⟨some [⟨"A.png", cA⟩, ⟨"a.png", cB⟩], none, none,
        none⟩)).1 = 0 ∧
    (assetMain (some ⟨some [⟨"A.png", cA⟩, ⟨"a.png", cB⟩], none, none,
        none⟩)).2.writes =
      [("processed_assets/textures/A.png", cA),
       ("processed_assets/textures/a.png", cB)] ∧
    (assetMain (some ⟨some [⟨"A.png", cA⟩, ⟨"a.png", cB⟩], none, none,
        none⟩)).2.manifest.length = 2 ∧
    ∀ tree, (assetMain tree).1 ≠ 2 :=
  ⟨by decide, rfl, rfl, rfl, assetMain_ne_two⟩

/-- C7 witness: the amended statement applied to concrete contents. -/
theorem c7_no_duplicate_detection_witness :
    (assetMain (some ⟨some [⟨"A.png", [1]⟩, ⟨"a.png", [2]⟩], none, none,
        none⟩)).1 = 0 ∧
    (assetMain none).1 ≠ 2 :=
  ⟨(c7_no_duplicate_detection [1] [2]).2.1,
   (c7_no_duplicate_detection [1] [2]).2.2.2.2 none⟩

/-- C8: every file in a category listing whose lowercased suffix is
recognized is copied byte-for-byte to the mirrored path under the output
directory's matching subdirectory, with name and content unchanged, for
each of the four categories. -/
theorem c8_verbatim_mirror (a o : String) (t : AssetsDir) (files : List SrcFile)
    (f : SrcFile) :
    (t.textures = some files → f ∈ files →
      asciiLower (pySuffix f.name) ∈ catExtensions "texture" →
      (o ++ "/" ++ "textures" ++ "/" ++ f.name, f.content)
        ∈ (process_all_assets a o (some t)).writes) ∧
    (t.models = some files → f ∈ files →
      asciiLower (pySuffix f.name) ∈ catExtensions "model" →
      (o ++ "/" ++ "models" ++ "/" ++ f.name, f.content)
        ∈ (process_all_assets a o (some t)).writes) ∧
    (t.sounds = some files → f ∈ files →
      asciiLower (pySuffix f.name) ∈ catExtensions "audio" →
      (o ++ "/" ++ "sounds" ++ "/" ++ f.name, f.content)
        ∈ (process_all_assets a o (some t)).writes) ∧
    (t.shaders = some files → f ∈ files →
      asciiLower (pySuffix f.name) ∈ catExtensions "shader" →
      (o ++ "/" ++ "shaders" ++ "/" ++ f.name, f.content)
        ∈ (process_all_assets a o (some t)).writes) := by
  refine ⟨?_, ?_, ?_, ?_⟩ <;> intro ht hf hext
  · simp only [process_all_assets, ht, process_textures, List.mem_append]
    exact Or.inl (Or.inl (Or.inl
      (processFiles_write_of_mem a o "texture" "textures" files f hf hext)))
  · simp only [process_all_assets, ht, process_models, List.mem_append]
    exact Or.inl (Or.inl (Or.inr
      (processFiles_write_of_mem a o "model" "models" files f hf hext)))
  · simp only [process_all_assets, ht, process_audio, List.mem_append]
    exact Or.inl (Or.inr
      (processFiles_write_of_mem a o "audio" "sounds" files f hf hext))
  · simp only [process_all_assets, ht, process_shaders, List.mem_append]
    exact Or.inr (processFiles_write_of_mem a o "shader" "shaders" files f hf hext)

/-- C8 witness: the statement applied to a one-texture tree. -/
theorem c8_verbatim_mirror_witness :
    ("out" ++ "/" ++ "textures" ++ "/" ++ "a.png", ([5] : Bytes)) ∈
      (process_all_assets "assets" "out"
        (some ⟨some [⟨"a.png", [5]⟩], none, none, none⟩)).writes :=
  (c8_verbatim_mirror "assets" "out" ⟨some [⟨"a.png", [5]⟩], none, none, none⟩
      [⟨"a.png", [5]⟩] ⟨"a.png", [5]⟩).1 rfl (by decide) (by decide)

/-- C10: over the immediate children of a category directory (the
non-recursive glob listing), a file is copied, recorded in the manifest
and announced in a log line exactly when its lowercased suffix belongs to
the category's fixed extension list; every other file contributes no
write, no manifest record and no log line — skipped with no warning and
no error. -/
theorem c10_extension_filter (a o ty cd : String) (files : List SrcFile) :
    processFiles a o ty cd files =
      ⟨(files.filter (fun f => asciiLower (pySuffix f.name) ∈ catExtensions ty)).map
          (fun f => (o ++ "/" ++ cd ++ "/" ++ f.name, f.content)),
        (files.filter (fun f => asciiLower (pySuffix f.name) ∈ catExtensions ty)).map
          (fun f => ⟨ty, a ++ "/" ++ cd ++ "/" ++ f.name,
            o ++ "/" ++ cd ++ "/" ++ f.name⟩),
        (files.filter (fun f => asciiLower (pySuffix f.name) ∈ catExtensions ty)).map
          (fun f => "Processing " ++ ty ++ ": " ++ pyName f.name)⟩ ∧
    ∀ e, e ∈ (processFiles a o ty cd files).entries ↔
      ∃ f, f ∈ files ∧ asciiLower (pySuffix f.name) ∈ catExtensions ty ∧
        e = ⟨ty, a ++ "/" ++ cd ++ "/" ++ f.name, o ++ "/" ++ cd ++ "/" ++ f.name⟩ := by
  refine ⟨processFiles_eq a o ty cd files, ?_⟩
  intro e
  rw [processFiles_eq]
  simp only [List.mem_map, List.mem_filter, decide_eq_true_eq]
  constructor
  · rintro ⟨f, ⟨hf, hp⟩, he⟩
    exact ⟨f, hf, hp, he.symm⟩
  · rintro ⟨f, hf, hp, he⟩
    exact ⟨f, ⟨hf, hp⟩, he.symm⟩

/-- C10 witness: the statement applied to a concrete listing where the
txt file is skipped and the png file is recorded. -/
theorem c10_extension_filter_witness :
    (processFiles "assets" "out" "texture" "textures"
      [⟨"a.png", [1]⟩, ⟨"readme.txt", [2]⟩]).entries =
      [⟨"texture", "assets/textures/a.png", "out/textures/a.png"⟩] := by
  rw [(c10_extension_filter "assets" "out" "texture" "textures"
      [⟨"a.png", [1]⟩, ⟨"readme.txt", [2]⟩]).1]
  decide

end GameTools

